import Mathlib

/-!
Verification of the Waygen flight-metrics and footprint-geometry code
(src/utils/geospatial.js together with its call sites in
hooks/useMissionGeneration.js and components/Sidebar/SidebarMain.jsx).

JavaScript numbers are modelled by JSNum: an idealized rational together
with the IEEE special values NaN, Infinity and -Infinity.  The sign of
zero (IEEE -0) is not modelled; none of the verified paths depends on it.
The footprint computation is modelled over an arbitrary linear ordered
field with the transcendental library functions (Math.sin, Math.cos,
Math.tan, Math.atan, Math.sqrt, Math.atan2, turf.destination) abstracted
as an operation pack; the facts the theorems use about them are stated as
hypotheses and discharged with the real functions in the witnesses.
-/

namespace Waygen

/-- Model of a JavaScript number: a rational, NaN, Infinity or -Infinity. -/
inductive JSNum where
  | num : ℚ → JSNum
  | nan : JSNum
  | inf : JSNum
  | ninf : JSNum
deriving DecidableEq

namespace JSNum

/-- JavaScript truthiness of a number: 0 and NaN are falsy. -/
def falsy : JSNum → Bool
  | num a => decide (a = 0)
  | nan => true
  | _ => false

/-- The JavaScript comparison x <= y; false whenever either side is NaN. -/
def leb : JSNum → JSNum → Bool
  | nan, _ => false
  | _, nan => false
  | ninf, _ => true
  | _, ninf => false
  | _, inf => true
  | inf, _ => false
  | num a, num b => decide (a ≤ b)

/-- JavaScript Math.min on two numbers: NaN absorbs, otherwise the smaller. -/
def minJS : JSNum → JSNum → JSNum
  | nan, _ => nan
  | _, nan => nan
  | ninf, _ => ninf
  | _, ninf => ninf
  | inf, b => b
  | a, inf => a
  | num a, num b => num (if a ≤ b then a else b)

/-- JavaScript Math.max on two numbers: NaN absorbs, otherwise the larger. -/
def maxJS : JSNum → JSNum → JSNum
  | nan, _ => nan
  | _, nan => nan
  | inf, _ => inf
  | _, inf => inf
  | ninf, b => b
  | a, ninf => a
  | num a, num b => num (if a ≤ b then b else a)

/-- JavaScript division.  Finite by nonzero finite is exact rational division;
division of a nonzero finite by zero gives a signed infinity (the sign of an
IEEE zero divisor is not modelled); 0/0 and NaN operands give NaN. -/
def div : JSNum → JSNum → JSNum
  | nan, _ => nan
  | _, nan => nan
  | num a, num b =>
      if b = 0 then (if a = 0 then nan else if 0 < a then inf else ninf)
      else num (a / b)
  | inf, num b => if 0 ≤ b then inf else ninf
  | ninf, num b => if 0 ≤ b then ninf else inf
  | num _, inf => num 0
  | num _, ninf => num 0
  | inf, inf => nan
  | inf, ninf => nan
  | ninf, inf => nan
  | ninf, ninf => nan

end JSNum

/-- A waypoint as consumed by calculateMaxSpeed: an object with lng and lat. -/
structure GeoPoint where
  lng : JSNum
  lat : JSNum
deriving DecidableEq

/-- The distances array built by the loop in calculateMaxSpeed: one geodesic
distance per consecutive waypoint pair (indices i and i+1). -/
def consecutiveDistances (dist : GeoPoint → GeoPoint → JSNum) :
    List GeoPoint → List JSNum
  | a :: b :: rest => dist a b :: consecutiveDistances dist (b :: rest)
  | _ => []

/-- JavaScript Math.min(...list): the fold of two-argument Math.min starting
from Math.min() = Infinity. -/
def mathMinSpread (ds : List JSNum) : JSNum := ds.foldl JSNum.minJS JSNum.inf

/-- Model of calculateMaxSpeed (src/utils/geospatial.js lines 113-131).  The
geodesic routine calculateDistance wraps the external turf.distance (haversine
on a sphere); it is abstracted as the parameter dist.  The facts assumed about
it in the theorems are stated as hypotheses there: every returned distance is
a nonnegative finite number or NaN - finite coordinates give a nonnegative
finite haversine, and an infinite coordinate passes the point validation of
the library (its isNumber check only rejects NaN) and then makes the
trigonometric steps of the haversine produce NaN.  A NaN coordinate never
yields a distance at all: the library point constructor rejects it with an
exception, so no claim is settled at such an input.  The JavaScript guard is
(no waypoint array) or length < 2 or (photoInterval falsy) or
photoInterval <= 0; an absent array cannot arise for a Lean list. -/
def calculateMaxSpeed (dist : GeoPoint → GeoPoint → JSNum)
    (waypoints : List GeoPoint) (photoInterval : JSNum) : JSNum × JSNum :=
  if waypoints.length < 2 ∨ photoInterval.falsy ∨ photoInterval.leb (.num 0) then
    (.num 0, .num 0)
  else
    let distances := consecutiveDistances dist waypoints
    let minDistance := mathMinSpread distances
    (JSNum.maxJS (.num 0) (minDistance.div photoInterval), minDistance)

/-- JavaScript semantics of the handleGenerate call site
(hooks/useMissionGeneration.js lines 266-273): calculateMaxSpeed is applied to
six arguments although it declares two parameters, so the four extra arguments
(altitude, effectiveFOV, gimbalPitch, frontOverlap) are dropped. -/
def calculateMaxSpeedCallSite (dist : GeoPoint → GeoPoint → JSNum)
    (waypoints : List GeoPoint) (photoInterval : JSNum)
    (altitude fov gimbalPitch frontOverlap : JSNum) : JSNum × JSNum :=
  calculateMaxSpeed dist waypoints photoInterval

/-- Modelled from the spec: the takeoff/landing overhead constant is exported
by src/utils/dronePresets.js, which is not among the provided sources;
docs/CODE_QUALITY.md records TAKEOFF_LANDING_OVERHEAD = 0. -/
def TAKEOFF_LANDING_OVERHEAD : ℚ := 0

/-- JavaScript Math.round on a finite number: floor(x + 1/2), ties rounding
toward positive infinity. -/
def mathRound (x : ℚ) : ℚ := ((⌊x + 1 / 2⌋ : ℤ) : ℚ)

/-- Model of calculateMissionTime (src/utils/geospatial.js lines 139-146) on
finite inputs.  The JavaScript guard (speed falsy) or speed <= 0 reduces to
speed <= 0 on finite numbers. -/
def calculateMissionTime (totalDistance speed : ℚ) : ℚ :=
  if speed ≤ 0 then TAKEOFF_LANDING_OVERHEAD
  else
    let transitTime := totalDistance / speed
    let missionTime := transitTime + TAKEOFF_LANDING_OVERHEAD
    mathRound missionTime

/-- Modelled from the spec: the warning threshold constant is exported by
src/utils/dronePresets.js, which is not among the provided sources;
docs/CODE_QUALITY.md records FLIGHT_WARNING_THRESHOLD = 0.85 and the spec
states the 85 percent tier boundary. -/
def FLIGHT_WARNING_THRESHOLD : ℚ := 85 / 100

/-- The three result strings of getFlightWarningLevel, as an enumeration:
safe, warning and critical stand for the returned string literals. -/
inductive WarningLevel where
  | safe
  | warning
  | critical
deriving DecidableEq

/-- Model of getFlightWarningLevel (src/utils/geospatial.js lines 154-169) on
finite inputs.  The JavaScript guard (maxFlightTimeMinutes falsy) or
maxFlightTimeMinutes <= 0 reduces to <= 0 on finite numbers. -/
def getFlightWarningLevel (missionTimeSeconds maxFlightTimeMinutes : ℚ) :
    WarningLevel :=
  if maxFlightTimeMinutes ≤ 0 then .safe
  else
    let maxFlightTimeSeconds := maxFlightTimeMinutes * 60
    let warningThreshold := maxFlightTimeSeconds * FLIGHT_WARNING_THRESHOLD
    if maxFlightTimeSeconds ≤ missionTimeSeconds then .critical
    else if warningThreshold ≤ missionTimeSeconds then .warning
    else .safe

/-- Concrete distance function instantiating the abstract geodesic distance in
witnesses and counterexamples (squared planar distance).  Like the haversine
of turf.distance it returns a nonnegative finite number on finite coordinates
and NaN when a coordinate is infinite: an infinite coordinate passes the
isNumber validation of the library point constructor and the trigonometric
steps of the haversine then evaluate at Infinity, giving NaN.  (A NaN
coordinate is instead rejected by that validation with an exception; the
fallback row of this match also covers NaN coordinates, but no theorem or
counterexample is stated at such an input.) -/
def sqDist (a b : GeoPoint) : JSNum :=
  match a.lng, a.lat, b.lng, b.lat with
  | .num x1, .num y1, .num x2, .num y2 =>
      .num ((x1 - x2) * (x1 - x2) + (y1 - y2) * (y1 - y2))
  | _, _, _, _ => .nan

/-- Sample waypoint list: consecutive squared distances 25 and 1. -/
def wpsSample : List GeoPoint :=
  [⟨.num 0, .num 0⟩, ⟨.num 3, .num 4⟩, ⟨.num 3, .num 5⟩]

/-- Waypoint list whose first longitude is Infinity. -/
def wpsInf : List GeoPoint := [⟨.inf, .num 0⟩, ⟨.num 0, .num 0⟩]

/-- A geographic point for the footprint computation, over an idealized
scalar field R. -/
structure GeoPt (R : Type) where
  lng : R
  lat : R
deriving DecidableEq

/-- A vector in camera or drone-body space. -/
structure Vec3 (R : Type) where
  x : R
  y : R
  z : R
deriving DecidableEq

/-- The library operations used by calculateFootprint, abstracted: Math.pi,
Math.sin, Math.cos, Math.tan, Math.atan, Math.sqrt, Math.atan2 and the
geodesic projection turf.destination (taking a point, a distance in
kilometers and a bearing in degrees). -/
structure CamOps (R : Type) where
  pi : R
  sin : R → R
  cos : R → R
  tan : R → R
  atan : R → R
  sqrt : R → R
  atan2 : R → R → R
  destination : GeoPt R → R → R → GeoPt R

/-- A GeoJSON-polygon-like footprint: the closed ring plus the recorded
altitude, heading, hfov and pitch properties. -/
structure Footprint (R : Type) where
  ring : List (GeoPt R)
  altitude : R
  heading : R
  hfov : R
  pitch : R
deriving DecidableEq

variable {R : Type} [LinearOrderedField R]

/-- The four frame corners in camera space at z = 1, in source order TR, BR,
BL, TL (src/utils/geospatial.js lines 30-35). -/
def cornersCam (halfH halfV : R) : List (Vec3 R) :=
  [⟨halfH, halfV, 1⟩, ⟨halfH, -halfV, 1⟩, ⟨-halfH, -halfV, 1⟩, ⟨-halfH, halfV, 1⟩]

/-- Rotation of a camera-space corner by the gimbal pitch around the X axis
into the drone body frame (src/utils/geospatial.js lines 45-47). -/
def rotatePitch (cosP sinP : R) (p : Vec3 R) : Vec3 R :=
  ⟨p.x, p.z * cosP - p.y * sinP, p.z * sinP + p.y * cosP⟩

/-- Ground distance and camera-relative angle for one rotated corner ray
(src/utils/geospatial.js lines 49-75).  A ray with rotated vertical component
at least -0.001 is the horizon case: the distance is projected to
maxRenderDist along the horizontal direction; otherwise the ray is intersected
with the ground plane at depth altitude, and a distance beyond maxRenderDist
is clamped to maxRenderDist. -/
def cornerDistAngle (ops : CamOps R) (altitude maxRenderDist : R)
    (v : Vec3 R) : R × R :=
  if -(1 / 1000) ≤ v.z then
    let horizontalMag := ops.sqrt (v.x * v.x + v.y * v.y)
    let t := maxRenderDist / horizontalMag
    let dx := t * v.x
    let dy := t * v.y
    (ops.sqrt (dx * dx + dy * dy), ops.atan2 dx dy * (180 / ops.pi))
  else
    let t := -altitude / v.z
    let dx := t * v.x
    let dy := t * v.y
    let dist := ops.sqrt (dx * dx + dy * dy)
    (if maxRenderDist < dist then maxRenderDist else dist,
     ops.atan2 dx dy * (180 / ops.pi))

/-- Model of calculateFootprint (src/utils/geospatial.js lines 14-92).
Arguments that may be absent are Options; the JavaScript falsy guard
(no center) or (altitude falsy) or (hfov falsy) maps an absent argument or a
numeric zero to the null result (a NaN altitude or hfov, also falsy, is
outside this idealized-scalar model). -/
def calculateFootprint (ops : CamOps R) (center : Option (GeoPt R))
    (altitude : Option R) (heading : R) (hfov : Option R) (gimbalPitch : R) :
    Option (Footprint R) :=
  match center, altitude, hfov with
  | some c, some a, some f =>
    if a = 0 ∨ f = 0 then none
    else
      let pitchRad := gimbalPitch * ops.pi / 180
      let aspect := (4 : R) / 3
      let hfovRad := f * ops.pi / 180
      let vfovRad := 2 * ops.atan (ops.tan (hfovRad / 2) / aspect)
      let halfH := ops.tan (hfovRad / 2)
      let halfV := ops.tan (vfovRad / 2)
      let maxRenderDist := a * 10
      let cosP := ops.cos pitchRad
      let sinP := ops.sin pitchRad
      let pts := (cornersCam halfH halfV).map fun p =>
        let v := rotatePitch cosP sinP p
        let da := cornerDistAngle ops a maxRenderDist v
        ops.destination c (da.1 / 1000) (heading + da.2)
      some ⟨pts ++ pts.take 1, a, heading, f, gimbalPitch⟩
  | _, _, _ => none

/-- Operation pack over the rationals with trivial entries, used where no
hypothesis constrains the library functions (the guard short-circuits before
any of them is applied). -/
def qOps : CamOps ℚ where
  pi := 0
  sin := fun _ => 0
  cos := fun _ => 0
  tan := fun _ => 0
  atan := fun _ => 0
  sqrt := fun _ => 0
  atan2 := fun _ _ => 0
  destination := fun c _ _ => c

/-- The per-point properties read from one imported point feature; an absent
property is none (JavaScript undefined). -/
structure PointProps where
  altitude : Option ℚ
  speed : Option ℚ
  gimbalPitch : Option ℚ
  heading : Option ℚ
deriving DecidableEq

/-- The fields of the store settings record that processFile reads as
fallbacks.  The documented settings record (docs, ARCHITECTURE) holds many
more fields and in particular no heading default; only the three read fields
are modelled. -/
structure ImportSettings where
  altitude : ℚ
  speed : ℚ
  gimbalPitch : ℚ
deriving DecidableEq

/-- The waypoint built by processFile for one imported point feature.  The
generated id (a fresh opaque token) is omitted. -/
structure ImportedWaypoint where
  lng : ℚ
  lat : ℚ
  altitude : ℚ
  speed : ℚ
  gimbalPitch : ℚ
  heading : ℚ
deriving DecidableEq

/-- Model of the waypoint construction in processFile
(components/Sidebar/SidebarMain.jsx lines 398-406): each property is taken
from the file when not undefined; altitude, speed and gimbalPitch fall back
to the settings record, while heading falls back to the literal 0. -/
def importedWaypoint (settings : ImportSettings) (lng lat : ℚ)
    (p : PointProps) : ImportedWaypoint where
  lng := lng
  lat := lat
  altitude := p.altitude.getD settings.altitude
  speed := p.speed.getD settings.speed
  gimbalPitch := p.gimbalPitch.getD settings.gimbalPitch
  heading := p.heading.getD 0

/-- Modelled from the spec: the defaults record the import description
presupposes, carrying a current-settings default for every per-point field,
heading included.  The store settings record documented in the repository has
no heading default, so this record is not realizable from the source; it
renders the claim wording for comparison with importedWaypoint. -/
structure SpecImportDefaults where
  altitude : ℚ
  speed : ℚ
  gimbalPitch : ℚ
  heading : ℚ
deriving DecidableEq

/-- Modelled from the spec: the import construction as the spec words it,
with every absent per-point field, heading included, falling back to the
current default settings. -/
def importedWaypointSpec (d : SpecImportDefaults) (lng lat : ℚ)
    (p : PointProps) : ImportedWaypoint where
  lng := lng
  lat := lat
  altitude := p.altitude.getD d.altitude
  speed := p.speed.getD d.speed
  gimbalPitch := p.gimbalPitch.getD d.gimbalPitch
  heading := p.heading.getD d.heading

/-- The squared-distance instantiation satisfies the property assumed of the
geodesic distance: each value is NaN or a nonnegative finite number. -/
theorem sqDist_nonneg_or_nan (a b : GeoPoint) :
    sqDist a b = .nan ∨ ∃ q, 0 ≤ q ∧ sqDist a b = .num q := by
  rcases a with ⟨la, ta⟩
  rcases b with ⟨lb, tb⟩
  cases la <;> cases ta <;> cases lb <;> cases tb <;>
    first
      | exact Or.inl rfl
      | exact Or.inr ⟨_, add_nonneg (mul_self_nonneg _) (mul_self_nonneg _), rfl⟩

/-- Math.min with left argument Infinity returns its right argument. -/
theorem minJS_inf_left (d : JSNum) : JSNum.minJS .inf d = d := by
  cases d <;> rfl

/-- Invariant of the Math.min fold: an accumulator and elements that are each
NaN or a nonnegative finite number fold to NaN or a nonnegative finite
number. -/
theorem foldl_minJS_nonneg_or_nan (ds : List JSNum) (acc : JSNum)
    (hacc : acc = .nan ∨ ∃ q, 0 ≤ q ∧ acc = .num q)
    (h : ∀ d ∈ ds, d = .nan ∨ ∃ q, 0 ≤ q ∧ d = .num q) :
    ds.foldl JSNum.minJS acc = .nan
      ∨ ∃ q, 0 ≤ q ∧ ds.foldl JSNum.minJS acc = .num q := by
  induction ds generalizing acc with
  | nil => exact hacc
  | cons d ds ih =>
    refine ih (JSNum.minJS acc d) ?_ fun e he => h e (List.mem_cons_of_mem _ he)
    rcases h d (List.mem_cons_self _ _) with hd | ⟨q, hq, hd⟩ <;>
      rcases hacc with ha | ⟨r, hr, ha⟩ <;> subst hd <;> subst ha
    · exact Or.inl rfl
    · exact Or.inl rfl
    · exact Or.inl rfl
    · exact Or.inr ⟨if r ≤ q then r else q, by split_ifs <;> assumption, rfl⟩

/-- The Math.min spread of a nonempty list of NaN-or-nonnegative-finite
values is NaN or a nonnegative finite value. -/
theorem mathMinSpread_nonneg_or_nan (d : JSNum) (ds : List JSNum)
    (h : ∀ e ∈ d :: ds, e = .nan ∨ ∃ q, 0 ≤ q ∧ e = .num q) :
    mathMinSpread (d :: ds) = .nan
      ∨ ∃ q, 0 ≤ q ∧ mathMinSpread (d :: ds) = .num q := by
  unfold mathMinSpread
  rw [List.foldl_cons, minJS_inf_left]
  exact foldl_minJS_nonneg_or_nan ds d (h d (List.mem_cons_self _ _))
    fun e he => h e (List.mem_cons_of_mem _ he)

/-- Invariant of the Math.min fold when everything is finite and
nonnegative. -/
theorem foldl_minJS_finite (ds : List JSNum) (acc : JSNum)
    (hacc : ∃ q, 0 ≤ q ∧ acc = .num q)
    (h : ∀ d ∈ ds, ∃ q, 0 ≤ q ∧ d = .num q) :
    ∃ q, 0 ≤ q ∧ ds.foldl JSNum.minJS acc = .num q := by
  induction ds generalizing acc with
  | nil => exact hacc
  | cons d ds ih =>
    refine ih (JSNum.minJS acc d) ?_ fun e he => h e (List.mem_cons_of_mem _ he)
    obtain ⟨q, hq, hd⟩ := h d (List.mem_cons_self _ _)
    obtain ⟨r, hr, ha⟩ := hacc
    subst hd; subst ha
    exact ⟨if r ≤ q then r else q, by split_ifs <;> assumption, rfl⟩

/-- The Math.min spread of a nonempty list of nonnegative finite values is a
nonnegative finite value. -/
theorem mathMinSpread_finite (d : JSNum) (ds : List JSNum)
    (h : ∀ e ∈ d :: ds, ∃ q, 0 ≤ q ∧ e = .num q) :
    ∃ q, 0 ≤ q ∧ mathMinSpread (d :: ds) = .num q := by
  unfold mathMinSpread
  rw [List.foldl_cons, minJS_inf_left]
  exact foldl_minJS_finite ds d (h d (List.mem_cons_self _ _))
    fun e he => h e (List.mem_cons_of_mem _ he)

/-- A list of at least two waypoints yields a nonempty distances array. -/
theorem consecutiveDistances_ne_nil (dist : GeoPoint → GeoPoint → JSNum) :
    ∀ wps : List GeoPoint, 2 ≤ wps.length →
      ∃ d ds, consecutiveDistances dist wps = d :: ds
  | a :: b :: rest, _ => ⟨dist a b, consecutiveDistances dist (b :: rest), rfl⟩

/-- Every entry of the distances array is a distance of some waypoint pair. -/
theorem consecutiveDistances_mem (dist : GeoPoint → GeoPoint → JSNum) :
    ∀ wps : List GeoPoint, ∀ e ∈ consecutiveDistances dist wps,
      ∃ a b, e = dist a b
  | a :: b :: rest, e, he => by
    rcases List.mem_cons.mp he with rfl | he
    · exact ⟨a, b, rfl⟩
    · exact consecutiveDistances_mem dist (b :: rest) e he
  | [], e, he => by simp [consecutiveDistances] at he
  | [a], e, he => by simp [consecutiveDistances] at he

/-- The calculateMaxSpeed guard is false for at least two waypoints and a
positive finite photo interval. -/
theorem maxSpeed_guard_false (waypoints : List GeoPoint) (c : ℚ)
    (hlen : 2 ≤ waypoints.length) (hc : 0 < c) :
    ¬(waypoints.length < 2 ∨ (JSNum.falsy (.num c) : Prop)
        ∨ (JSNum.leb (.num c) (.num 0) : Prop)) := by
  push_neg
  refine ⟨by omega, ?_, ?_⟩
  · simp [JSNum.falsy]
    exact ne_of_gt hc
  · simp [JSNum.leb]
    exact hc

/-- C1: with at least two waypoints and a positive finite photo interval,
calculateMaxSpeed returns minDistance equal to the smallest consecutive-pair
distance (the Math.min spread of the distances array) and maxSpeed equal to
that smallest distance divided by the photo interval. -/
theorem C1_maxSpeed_is_min_distance_over_interval
    (dist : GeoPoint → GeoPoint → JSNum)
    (hdist : ∀ a b, dist a b = .nan ∨ ∃ q, 0 ≤ q ∧ dist a b = .num q)
    (waypoints : List GeoPoint) (h2 : 2 ≤ waypoints.length)
    (c : ℚ) (hc : 0 < c) :
    calculateMaxSpeed dist waypoints (.num c)
      = ((mathMinSpread (consecutiveDistances dist waypoints)).div (.num c),
         mathMinSpread (consecutiveDistances dist waypoints)) := by
  simp only [calculateMaxSpeed]
  rw [if_neg (maxSpeed_guard_false waypoints c h2 hc)]
  refine Prod.ext ?_ rfl
  obtain ⟨d, ds, hds⟩ := consecutiveDistances_ne_nil dist waypoints h2
  rw [hds]
  have hm := mathMinSpread_nonneg_or_nan d ds (by
    intro e he
    rw [← hds] at he
    obtain ⟨a, b, rfl⟩ := consecutiveDistances_mem dist waypoints e he
    exact hdist a b)
  rcases hm with hnan | ⟨q, hq, hnum⟩
  · rw [hnan]
    rfl
  · rw [hnum]
    have hdivq : (JSNum.num q).div (.num c) = .num (q / c) := by
      simp [JSNum.div, ne_of_gt hc]
    rw [hdivq]
    show JSNum.num (if 0 ≤ q / c then q / c else 0) = JSNum.num (q / c)
    rw [if_pos (div_nonneg hq hc.le)]

/-- Witness for C1: three waypoints with consecutive squared distances 25 and
1, photo interval 2; minDistance is 1 and maxSpeed 1/2. -/
theorem C1_witness :
    calculateMaxSpeed sqDist wpsSample (.num 2)
      = ((mathMinSpread (consecutiveDistances sqDist wpsSample)).div (.num 2),
         mathMinSpread (consecutiveDistances sqDist wpsSample))
    ∧ mathMinSpread (consecutiveDistances sqDist wpsSample) = .num 1
    ∧ calculateMaxSpeed sqDist wpsSample (.num 2) = (.num (1 / 2), .num 1) := by
  have hds : consecutiveDistances sqDist wpsSample = [.num 25, .num 1] := by
    norm_num [consecutiveDistances, wpsSample, sqDist]
  have hmin : mathMinSpread (consecutiveDistances sqDist wpsSample) = .num 1 := by
    rw [hds]
    show JSNum.num (if (25 : ℚ) ≤ 1 then 25 else 1) = .num 1
    rw [if_neg (by norm_num)]
  have happ := C1_maxSpeed_is_min_distance_over_interval sqDist
    sqDist_nonneg_or_nan wpsSample (by decide) 2 (by norm_num)
  refine ⟨happ, hmin, ?_⟩
  rw [happ, hmin]
  have hdiv : (JSNum.num (1 : ℚ)).div (.num 2) = .num (1 / 2) := by
    show (if (2 : ℚ) = 0 then
        (if (1 : ℚ) = 0 then JSNum.nan
         else if (0 : ℚ) < 1 then JSNum.inf else JSNum.ninf)
      else JSNum.num (1 / 2)) = JSNum.num (1 / 2)
    rw [if_neg (by norm_num)]
  rw [hdiv]

/-- C4 counterexample: a waypoint with Infinity longitude gives a NaN
consecutive distance (the infinite coordinate passes the library point
validation, whose isNumber check only rejects NaN, and the haversine
trigonometry at Infinity yields NaN), and calculateMaxSpeed returns maxSpeed
NaN, refuting that maxSpeed is never NaN: Math.max(0, NaN) is NaN, so no
clamping of non-finite values takes place. -/
theorem C4_counterexample :
    (calculateMaxSpeed sqDist wpsInf (.num 1)).1 = .nan := by decide

/-- C4 amended: maxSpeed is never Infinity or -Infinity, and is either NaN
(when some consecutive distance is NaN, as arises from an infinite
coordinate) or a nonnegative finite number; invalid inputs (fewer than two
waypoints, non-positive or NaN cadence) yield maxSpeed 0 and minDistance 0
through the guard. -/
theorem C4_maxSpeed_never_infinite (dist : GeoPoint → GeoPoint → JSNum)
    (hdist : ∀ a b, dist a b = .nan ∨ ∃ q, 0 ≤ q ∧ dist a b = .num q)
    (waypoints : List GeoPoint) (photoInterval : JSNum) :
    (calculateMaxSpeed dist waypoints photoInterval).1 ≠ .inf
    ∧ (calculateMaxSpeed dist waypoints photoInterval).1 ≠ .ninf
    ∧ ((calculateMaxSpeed dist waypoints photoInterval).1 = .nan
        ∨ ∃ q, 0 ≤ q ∧ (calculateMaxSpeed dist waypoints photoInterval).1
            = .num q) := by
  by_cases hg : waypoints.length < 2 ∨ (photoInterval.falsy : Prop)
      ∨ (photoInterval.leb (.num 0) : Prop)
  · simp only [calculateMaxSpeed, if_pos hg]
    exact ⟨by decide, by decide, Or.inr ⟨0, le_rfl, rfl⟩⟩
  · simp only [calculateMaxSpeed, if_neg hg]
    push_neg at hg
    obtain ⟨hlen, hfalsy, hle⟩ := hg
    obtain ⟨d, ds, hds⟩ := consecutiveDistances_ne_nil dist waypoints (by omega)
    rw [hds]
    have hm := mathMinSpread_nonneg_or_nan d ds (by
      intro e he
      rw [← hds] at he
      obtain ⟨a, b, rfl⟩ := consecutiveDistances_mem dist waypoints e he
      exact hdist a b)
    cases photoInterval with
    | nan => exact absurd rfl hfalsy
    | ninf => exact absurd rfl hle
    | inf =>
      rcases hm with hnan | ⟨q, hq, hnum⟩
      · rw [hnan]
        refine ⟨?_, ?_, Or.inl rfl⟩ <;> decide
      · rw [hnum]
        have hred : (JSNum.num 0).maxJS ((JSNum.num q).div JSNum.inf)
            = (JSNum.num 0).maxJS (JSNum.num 0) := rfl
        rw [hred]
        refine ⟨?_, ?_, Or.inr ⟨0, le_rfl, ?_⟩⟩ <;> decide
    | num c =>
      have hc : 0 < c := by
        have hcle : ¬(c ≤ 0) := by simpa [JSNum.leb] using hle
        exact not_le.mp hcle
      rcases hm with hnan | ⟨q, hq, hnum⟩
      · rw [hnan]
        have hred : (JSNum.num 0).maxJS (JSNum.nan.div (JSNum.num c))
            = JSNum.nan := rfl
        rw [hred]
        exact ⟨by decide, by decide, Or.inl rfl⟩
      · rw [hnum]
        have hdivq : (JSNum.num q).div (.num c) = .num (q / c) := by
          simp [JSNum.div, ne_of_gt hc]
        rw [hdivq]
        have hmax : (JSNum.num 0).maxJS (JSNum.num (q / c))
            = JSNum.num (if (0 : ℚ) ≤ q / c then q / c else 0) := rfl
        rw [hmax, if_pos (div_nonneg hq hc.le)]
        exact ⟨by simp, by simp, Or.inr ⟨q / c, div_nonneg hq hc.le, rfl⟩⟩

/-- Witness for C4 at the infinite-longitude waypoint list: maxSpeed is NaN
but not an infinity. -/
theorem C4_witness :
    (calculateMaxSpeed sqDist wpsInf (.num 1)).1 ≠ .inf
    ∧ (calculateMaxSpeed sqDist wpsInf (.num 1)).1 ≠ .ninf
    ∧ ((calculateMaxSpeed sqDist wpsInf (.num 1)).1 = .nan
        ∨ ∃ q, 0 ≤ q ∧ (calculateMaxSpeed sqDist wpsInf (.num 1)).1
            = .num q) :=
  C4_maxSpeed_never_infinite sqDist sqDist_nonneg_or_nan wpsInf (.num 1)

/-- C5 counterexample: fixing the waypoints, cadence 0 is invalid and clamps
maxSpeed to 0, while cadence 1 gives a positive maxSpeed, so raising the
cadence from 0 to 1 raises maxSpeed: the claim fails without a positivity
restriction on the smaller cadence (the JavaScript comparison confirms
maxSpeed at cadence 1 is not at most maxSpeed at cadence 0). -/
theorem C5_counterexample :
    (0 : ℚ) ≤ 1
    ∧ (calculateMaxSpeed sqDist wpsSample (.num 0)).1 = .num 0
    ∧ (calculateMaxSpeed sqDist wpsSample (.num 1)).1 = .num 1
    ∧ JSNum.leb (calculateMaxSpeed sqDist wpsSample (.num 1)).1
        (calculateMaxSpeed sqDist wpsSample (.num 0)).1 = false := by
  have h0 : (calculateMaxSpeed sqDist wpsSample (.num 0)).1 = .num 0 := by decide
  have hds : consecutiveDistances sqDist wpsSample = [.num 25, .num 1] := by
    norm_num [consecutiveDistances, wpsSample, sqDist]
  have h1 : (calculateMaxSpeed sqDist wpsSample (.num 1)).1 = .num 1 := by
    simp only [calculateMaxSpeed]
    rw [if_neg (maxSpeed_guard_false wpsSample 1 (by decide) (by norm_num))]
    rw [hds]
    have hm : mathMinSpread [JSNum.num 25, JSNum.num 1] = .num 1 := by
      show JSNum.num (if (25 : ℚ) ≤ 1 then 25 else 1) = .num 1
      rw [if_neg (by norm_num)]
    rw [hm]
    have hdiv : (JSNum.num (1 : ℚ)).div (.num 1) = .num 1 := by
      show (if (1 : ℚ) = 0 then
          (if (1 : ℚ) = 0 then JSNum.nan
           else if (0 : ℚ) < 1 then JSNum.inf else JSNum.ninf)
        else JSNum.num (1 / 1)) = JSNum.num 1
      rw [if_neg (by norm_num)]
      norm_num
    rw [hdiv]
    show JSNum.num (if (0 : ℚ) ≤ 1 then 1 else 0) = .num 1
    rw [if_pos (by norm_num)]
  refine ⟨by norm_num, h0, h1, ?_⟩
  rw [h1, h0]
  decide

/-- C5 amended: for fixed waypoints whose consecutive distances are all
finite and nonnegative, maxSpeed is non-increasing in the photo cadence over
positive cadences: 0 < cadence1 <= cadence2 gives finite speeds with
maxSpeed(cadence2) <= maxSpeed(cadence1). -/
theorem C5_maxSpeed_antitone_in_cadence (dist : GeoPoint → GeoPoint → JSNum)
    (waypoints : List GeoPoint)
    (hfin : ∀ e ∈ consecutiveDistances dist waypoints, ∃ q, 0 ≤ q ∧ e = .num q)
    (c1 c2 : ℚ) (h1 : 0 < c1) (h12 : c1 ≤ c2) :
    ∃ q1 q2 : ℚ,
      (calculateMaxSpeed dist waypoints (.num c1)).1 = .num q1
      ∧ (calculateMaxSpeed dist waypoints (.num c2)).1 = .num q2
      ∧ q2 ≤ q1 := by
  have h2 : 0 < c2 := lt_of_lt_of_le h1 h12
  by_cases hlen : waypoints.length < 2
  · refine ⟨0, 0, ?_, ?_, le_rfl⟩ <;>
      simp only [calculateMaxSpeed, if_pos (Or.inl hlen)]
  · have hlen2 : 2 ≤ waypoints.length := by omega
    obtain ⟨d, ds, hds⟩ := consecutiveDistances_ne_nil dist waypoints hlen2
    obtain ⟨q, hq, hm⟩ := mathMinSpread_finite d ds (by
      intro e he
      exact hfin e (hds ▸ he))
    have hval : ∀ c : ℚ, 0 < c →
        (calculateMaxSpeed dist waypoints (.num c)).1 = .num (q / c) := by
      intro c hc
      simp only [calculateMaxSpeed]
      rw [if_neg (maxSpeed_guard_false waypoints c hlen2 hc)]
      rw [hds, hm]
      have hdivq : (JSNum.num q).div (.num c) = .num (q / c) := by
        simp [JSNum.div, ne_of_gt hc]
      rw [hdivq]
      show JSNum.num (if 0 ≤ q / c then q / c else 0) = JSNum.num (q / c)
      rw [if_pos (div_nonneg hq hc.le)]
    exact ⟨q / c1, q / c2, hval c1 h1, hval c2 h2,
      div_le_div_of_nonneg_left hq h1 h12⟩

/-- Witness for C5: cadences 2 and 4 on the sample waypoints give speeds 1/2
and 1/4. -/
theorem C5_witness :
    ∃ q1 q2 : ℚ,
      (calculateMaxSpeed sqDist wpsSample (.num 2)).1 = .num q1
      ∧ (calculateMaxSpeed sqDist wpsSample (.num 4)).1 = .num q2
      ∧ q2 ≤ q1 :=
  C5_maxSpeed_antitone_in_cadence sqDist wpsSample
    (by
      intro e he
      have hds : consecutiveDistances sqDist wpsSample
          = [.num 25, .num 1] := by
        norm_num [consecutiveDistances, wpsSample, sqDist]
      rw [hds] at he
      rcases List.mem_cons.mp he with rfl | he2
      · exact ⟨25, by norm_num, rfl⟩
      · rcases List.mem_cons.mp he2 with rfl | he3
        · exact ⟨1, by norm_num, rfl⟩
        · exact absurd he3 (List.not_mem_nil e))
    2 4 (by norm_num) (by norm_num)

/-- The horizon-case normalization: scaling the horizontal components of a
ray with nonzero x by M over their root-sum-square and taking the
root-sum-square of the result gives back M.  The two hypotheses are the
Math.sqrt facts used throughout: on nonnegative input the root is
nonnegative and squares back to the input. -/
theorem sqrt_scaled_sum (ops : CamOps R)
    (h1 : ∀ x : R, 0 ≤ x → 0 ≤ ops.sqrt x)
    (h2 : ∀ x : R, 0 ≤ x → ops.sqrt x * ops.sqrt x = x)
    (M x y : R) (hM : 0 < M) (hx : x ≠ 0) :
    ops.sqrt (M / ops.sqrt (x * x + y * y) * x * (M / ops.sqrt (x * x + y * y) * x)
      + M / ops.sqrt (x * x + y * y) * y * (M / ops.sqrt (x * x + y * y) * y))
      = M := by
  have hs : 0 ≤ x * x + y * y :=
    add_nonneg (mul_self_nonneg x) (mul_self_nonneg y)
  have hmm := h2 _ hs
  have hx2 : 0 < x * x := mul_self_pos.mpr hx
  have hspos : 0 < x * x + y * y :=
    add_pos_of_pos_of_nonneg hx2 (mul_self_nonneg y)
  have hsne : x * x + y * y ≠ 0 := ne_of_gt hspos
  have e1 : M / ops.sqrt (x * x + y * y) * x * (M / ops.sqrt (x * x + y * y) * x)
      + M / ops.sqrt (x * x + y * y) * y * (M / ops.sqrt (x * x + y * y) * y)
      = M * M / (ops.sqrt (x * x + y * y) * ops.sqrt (x * x + y * y))
        * (x * x + y * y) := by ring
  have harg : M / ops.sqrt (x * x + y * y) * x * (M / ops.sqrt (x * x + y * y) * x)
      + M / ops.sqrt (x * x + y * y) * y * (M / ops.sqrt (x * x + y * y) * y)
      = M * M := by
    rw [e1, hmm, div_mul_cancel₀ _ hsne]
  rw [harg]
  have hroot := h2 (M * M) (by positivity)
  have hroot0 := h1 (M * M) (by positivity)
  rcases mul_self_eq_mul_self_iff.mp hroot with h | h
  · exact h
  · exfalso
    rw [h] at hroot0
    linarith

/-- Per-ray form of the footprint clamp: for positive altitude and a ray with
nonzero x component, the computed ground distance never exceeds
altitude * 10, and in the horizon case it is exactly altitude * 10. -/
theorem cornerDistAngle_le_max (ops : CamOps R)
    (hsqrt_nonneg : ∀ x : R, 0 ≤ x → 0 ≤ ops.sqrt x)
    (hsqrt_mul_self : ∀ x : R, 0 ≤ x → ops.sqrt x * ops.sqrt x = x)
    (altitude : R) (haltitude : 0 < altitude)
    (v : Vec3 R) (hx : v.x ≠ 0) :
    (cornerDistAngle ops altitude (altitude * 10) v).1 ≤ altitude * 10
    ∧ (-(1 / 1000) ≤ v.z →
        (cornerDistAngle ops altitude (altitude * 10) v).1 = altitude * 10) := by
  have hM : (0 : R) < altitude * 10 := by positivity
  by_cases hz : -(1 / 1000) ≤ v.z
  · have hkey := sqrt_scaled_sum ops hsqrt_nonneg hsqrt_mul_self
      (altitude * 10) v.x v.y hM hx
    have hdq : (cornerDistAngle ops altitude (altitude * 10) v).1
        = altitude * 10 := by
      simp only [cornerDistAngle]
      rw [if_pos hz]
      exact hkey
    exact ⟨le_of_eq hdq, fun _ => hdq⟩
  · refine ⟨?_, fun h => absurd h hz⟩
    simp only [cornerDistAngle]
    rw [if_neg hz]
    split_ifs with h
    · exact le_rfl
    · exact le_of_not_lt h

/-- C7: for every positive altitude and nondegenerate horizontal half-width
(halfH, the tangent of half the horizontal FOV, nonzero - true of every
horizontal FOV strictly between 0 and 360 degrees), each of the 4 corner
rays of calculateFootprint projects to a ground distance of at most
altitude * 10, and a corner in the degenerate horizon case (rotated vertical
component at least -0.001) projects to exactly altitude * 10.  The sqrt
hypotheses are the Math.sqrt facts used: nonnegative inputs have nonnegative
roots squaring back to the input. -/
theorem C7_corner_distance_clamped (ops : CamOps R)
    (hsqrt_nonneg : ∀ x : R, 0 ≤ x → 0 ≤ ops.sqrt x)
    (hsqrt_mul_self : ∀ x : R, 0 ≤ x → ops.sqrt x * ops.sqrt x = x)
    (altitude halfH halfV cosP sinP : R)
    (haltitude : 0 < altitude) (hH : halfH ≠ 0)
    (p : Vec3 R) (hp : p ∈ cornersCam halfH halfV) :
    (cornerDistAngle ops altitude (altitude * 10) (rotatePitch cosP sinP p)).1
        ≤ altitude * 10
    ∧ (-(1 / 1000) ≤ (rotatePitch cosP sinP p).z →
        (cornerDistAngle ops altitude (altitude * 10)
            (rotatePitch cosP sinP p)).1 = altitude * 10) := by
  simp only [cornersCam] at hp
  fin_cases hp
  · exact cornerDistAngle_le_max ops hsqrt_nonneg hsqrt_mul_self altitude
      haltitude _ hH
  · exact cornerDistAngle_le_max ops hsqrt_nonneg hsqrt_mul_self altitude
      haltitude _ hH
  · exact cornerDistAngle_le_max ops hsqrt_nonneg hsqrt_mul_self altitude
      haltitude _ (neg_ne_zero.mpr hH)
  · exact cornerDistAngle_le_max ops hsqrt_nonneg hsqrt_mul_self altitude
      haltitude _ (neg_ne_zero.mpr hH)

/-- Witness for C7 over the real numbers with the genuine library functions:
altitude 50, halfH 1 and halfV 3/4 (a 90 degree horizontal FOV), pitch 0
(cosP 1, sinP 0), at the top-right corner, whose rotated ray is the horizon
case; its projected distance is exactly 500 = 50 * 10. -/
theorem C7_witness :
    (0 : ℝ) < 50 ∧ (1 : ℝ) ≠ 0
    ∧ ((cornerDistAngle
          (⟨Real.pi, Real.sin, Real.cos, Real.tan, Real.arctan, Real.sqrt,
            fun _ _ => 0, fun c _ _ => c⟩ : CamOps ℝ) 50 (50 * 10)
          (rotatePitch 1 0 ⟨1, 3 / 4, 1⟩)).1 ≤ 50 * 10
      ∧ (-(1 / 1000) ≤ (rotatePitch (1 : ℝ) 0 ⟨1, 3 / 4, 1⟩).z →
          (cornerDistAngle
            (⟨Real.pi, Real.sin, Real.cos, Real.tan, Real.arctan, Real.sqrt,
              fun _ _ => 0, fun c _ _ => c⟩ : CamOps ℝ) 50 (50 * 10)
            (rotatePitch 1 0 ⟨1, 3 / 4, 1⟩)).1 = 50 * 10)) :=
  ⟨by norm_num, by norm_num,
   C7_corner_distance_clamped
     (⟨Real.pi, Real.sin, Real.cos, Real.tan, Real.arctan, Real.sqrt,
       fun _ _ => 0, fun c _ _ => c⟩ : CamOps ℝ)
     (fun x _ => Real.sqrt_nonneg x)
     (fun x hx => Real.mul_self_sqrt hx)
     50 1 (3 / 4) 1 0 (by norm_num) (by norm_num)
     ⟨1, 3 / 4, 1⟩ (by simp [cornersCam])⟩

/-- C2: getFlightWarningLevel is safe when the limit is zero or negative (no
time limit, so in particular safe for every mission time when the limit is 0)
or when the mission time is below 85 percent of the limit in seconds; warning
at or above 85 percent but below 100 percent; critical at or above the
limit. -/
theorem C2_getFlightWarningLevel_tiers (t m : ℚ) :
    (m ≤ 0 → getFlightWarningLevel t m = .safe)
    ∧ (0 < m → t < m * 60 * FLIGHT_WARNING_THRESHOLD →
        getFlightWarningLevel t m = .safe)
    ∧ (0 < m → m * 60 * FLIGHT_WARNING_THRESHOLD ≤ t → t < m * 60 →
        getFlightWarningLevel t m = .warning)
    ∧ (0 < m → m * 60 ≤ t → getFlightWarningLevel t m = .critical) := by
  refine ⟨fun h => ?_, fun hm ht => ?_, fun hm ht1 ht2 => ?_, fun hm ht => ?_⟩ <;>
    simp only [getFlightWarningLevel, FLIGHT_WARNING_THRESHOLD] at * <;>
    split_ifs with h1 h2 h3 <;> first | rfl | linarith

/-- Witness for C2: limit 1 minute, mission time 51 seconds sits exactly at
the 85 percent boundary (warning), and a zero limit is safe. -/
theorem C2_witness :
    getFlightWarningLevel 51 1 = .warning
    ∧ getFlightWarningLevel 1000000 0 = .safe :=
  ⟨(C2_getFlightWarningLevel_tiers 51 1).2.2.1 (by norm_num)
      (by norm_num [FLIGHT_WARNING_THRESHOLD]) (by norm_num),
   (C2_getFlightWarningLevel_tiers 1000000 0).1 le_rfl⟩

/-- C3: for positive speed, calculateMissionTime is the transit time plus the
takeoff/landing overhead constant rounded to the nearest second (Math.round,
ties toward positive infinity); for speed at most 0 it is exactly the
overhead constant, independent of the distance. -/
theorem C3_calculateMissionTime_formula (d s : ℚ) :
    (0 < s →
      calculateMissionTime d s = mathRound (d / s + TAKEOFF_LANDING_OVERHEAD))
    ∧ (s ≤ 0 → calculateMissionTime d s = TAKEOFF_LANDING_OVERHEAD)
    ∧ (s ≤ 0 → ∀ d2, calculateMissionTime d s = calculateMissionTime d2 s) := by
  refine ⟨fun hs => ?_, fun hs => ?_, fun hs d2 => ?_⟩ <;>
    simp only [calculateMissionTime]
  · rw [if_neg (not_le.mpr hs)]
  · rw [if_pos hs]
  · rw [if_pos hs, if_pos hs]

/-- Witness for C3: missionTime(1000, 0) is exactly the overhead constant,
and missionTime(100, 8) rounds 12.5 seconds up to 13 (overhead 0). -/
theorem C3_witness :
    calculateMissionTime 1000 0 = TAKEOFF_LANDING_OVERHEAD
    ∧ calculateMissionTime 100 8 = mathRound (100 / 8 + TAKEOFF_LANDING_OVERHEAD)
    ∧ calculateMissionTime 100 8 = 13 :=
  ⟨(C3_calculateMissionTime_formula 1000 0).2.1 le_rfl,
   (C3_calculateMissionTime_formula 100 8).1 (by norm_num),
   by norm_num [calculateMissionTime, mathRound, TAKEOFF_LANDING_OVERHEAD]⟩

/-- C9: the result of calculateMaxSpeed at the handleGenerate call site is
determined by the waypoint list and photoInterval alone; the four extra
arguments passed beyond the declared signature (altitude, field of view,
gimbal pitch, front overlap) are ignored by JavaScript application. -/
theorem C9_extra_arguments_ignored (dist : GeoPoint → GeoPoint → JSNum)
    (waypoints : List GeoPoint) (photoInterval a1 f1 p1 o1 a2 f2 p2 o2 : JSNum) :
    calculateMaxSpeedCallSite dist waypoints photoInterval a1 f1 p1 o1
      = calculateMaxSpeedCallSite dist waypoints photoInterval a2 f2 p2 o2
    ∧ calculateMaxSpeedCallSite dist waypoints photoInterval a1 f1 p1 o1
      = calculateMaxSpeed dist waypoints photoInterval :=
  ⟨rfl, rfl⟩

/-- C10: a numeric zero altitude or zero horizontal field of view makes
calculateFootprint return null, exactly like an absent argument, for every
center, heading and pitch. -/
theorem C10_zero_is_absent (ops : CamOps R) (center : Option (GeoPt R))
    (heading : R) (hfov altitude : Option R) (gimbalPitch : R) :
    calculateFootprint ops center (some 0) heading hfov gimbalPitch = none
    ∧ calculateFootprint ops center altitude heading (some 0) gimbalPitch
        = none := by
  constructor
  · rcases center with _ | c <;> rcases hfov with _ | f <;>
      simp [calculateFootprint]
  · rcases center with _ | c <;> rcases altitude with _ | a <;>
      simp [calculateFootprint]

/-- C6 counterexample: center, altitude and horizontalFOV are all supplied
(altitude with the numeric value 0), yet the result is null, refuting that
null is returned exactly when one of them is absent. -/
theorem C6_counterexample :
    calculateFootprint qOps (some ⟨0, 0⟩) (some 0) 0 (some 90) (-90)
      = none := by decide

/-- C6 amended: calculateFootprint returns null precisely when center is
absent, or altitude is absent or zero, or horizontalFOV is absent or zero;
whenever center is present and altitude and hfov are present and nonzero it
returns a footprint polygon (the model is a total function, so no exception
escapes). -/
theorem C6_none_iff_falsy (ops : CamOps R) (center : Option (GeoPt R))
    (altitude : Option R) (heading : R) (hfov : Option R) (gimbalPitch : R) :
    calculateFootprint ops center altitude heading hfov gimbalPitch = none
      ↔ center = none ∨ altitude = none ∨ altitude = some 0
        ∨ hfov = none ∨ hfov = some 0 := by
  rcases center with _ | c <;> rcases altitude with _ | a <;>
    rcases hfov with _ | f <;> simp [calculateFootprint]
  exact or_iff_not_imp_left.symm

/-- C8 counterexample: a point record with heading absent imports with
heading 0, while the spec-worded importer with any nonzero settings heading
default yields that default, so the source and the claim disagree. -/
theorem C8_counterexample :
    (importedWaypoint ⟨60, 10, -90⟩ 5 6 ⟨none, none, none, none⟩).heading = 0
    ∧ (importedWaypointSpec ⟨60, 10, -90, 7⟩ 5 6
        ⟨none, none, none, none⟩).heading = 7
    ∧ importedWaypoint ⟨60, 10, -90⟩ 5 6 ⟨none, none, none, none⟩
        ≠ importedWaypointSpec ⟨60, 10, -90, 7⟩ 5 6 ⟨none, none, none, none⟩ := by
  decide

/-- C8 amended: altitude, speed and gimbal pitch are taken from the file when
present and fall back to the current default settings when absent; heading is
taken from the file when present and falls back to the constant 0 (the
settings record has no heading default). -/
theorem C8_import_fallbacks (s : ImportSettings) (lng lat : ℚ)
    (p : PointProps) :
    ((p.altitude = none → (importedWaypoint s lng lat p).altitude = s.altitude)
      ∧ ∀ a, p.altitude = some a → (importedWaypoint s lng lat p).altitude = a)
    ∧ ((p.speed = none → (importedWaypoint s lng lat p).speed = s.speed)
      ∧ ∀ v, p.speed = some v → (importedWaypoint s lng lat p).speed = v)
    ∧ ((p.gimbalPitch = none →
          (importedWaypoint s lng lat p).gimbalPitch = s.gimbalPitch)
      ∧ ∀ g, p.gimbalPitch = some g →
          (importedWaypoint s lng lat p).gimbalPitch = g)
    ∧ ((p.heading = none → (importedWaypoint s lng lat p).heading = 0)
      ∧ ∀ h, p.heading = some h → (importedWaypoint s lng lat p).heading = h) := by
  refine ⟨⟨fun h => ?_, fun a h => ?_⟩, ⟨fun h => ?_, fun v h => ?_⟩,
    ⟨fun h => ?_, fun g h => ?_⟩, ⟨fun h => ?_, fun hh h => ?_⟩⟩ <;>
    simp [importedWaypoint, h]

/-- Witness for C8 at a concrete record: altitude present in the file is
kept, absent speed falls back to the settings speed, absent heading falls
back to 0. -/
theorem C8_witness :
    (importedWaypoint ⟨60, 10, -90⟩ 1 2 ⟨some 42, none, none, none⟩).altitude = 42
    ∧ (importedWaypoint ⟨60, 10, -90⟩ 1 2 ⟨some 42, none, none, none⟩).speed = 10
    ∧ (importedWaypoint ⟨60, 10, -90⟩ 1 2 ⟨some 42, none, none, none⟩).heading = 0 :=
  ⟨(C8_import_fallbacks ⟨60, 10, -90⟩ 1 2 ⟨some 42, none, none, none⟩).1.2 42 rfl,
   (C8_import_fallbacks ⟨60, 10, -90⟩ 1 2 ⟨some 42, none, none, none⟩).2.1.1 rfl,
   (C8_import_fallbacks ⟨60, 10, -90⟩ 1 2 ⟨some 42, none, none, none⟩).2.2.2.1 rfl⟩

end Waygen
